import Mathlib

/-!
Shallow embedding of the relativistic light-clock orbiter simulation core.

The embedding follows the per-frame `animate` callback of
`src/components/SimulationCanvas.tsx` (physics update, shared-state sync,
platform pose, photon placement, trail maintenance), the scenario-reset
effect of the same file, the shared-state read performed by
`src/components/RelativeView.tsx`, and the reset handler of the App
component. JavaScript numbers are modelled as real numbers; the mutable
per-frame state is modelled as explicit state passing through a tick
function.
-/

namespace LightClockSim

open Classical
noncomputable section

/-- Three-component vector, standing in for THREE.Vector3. -/
structure Vec3 where
  x : ℝ
  y : ℝ
  z : ℝ

instance : Add Vec3 := ⟨fun a b => ⟨a.x + b.x, a.y + b.y, a.z + b.z⟩⟩

/-- The four motion scenarios (enum `SimulationScenario` in src/unnamed/part_001). -/
inductive Mode where
  | LINEAR
  | EARTH_ORBIT
  | SOLAR_SYSTEM
  | GALAXY
deriving DecidableEq

/-- The mutable simulation state held in `threeRef.current.state`
(SimulationCanvas.tsx line 522). `shipTime` is the platform clock the spec
calls `platformTime`. -/
structure SimState where
  celestialTime : ℝ
  shipTime : ℝ
  linearOffset : ℝ
  photonPhase : ℝ
  photonDir : ℝ
  trailPoints : List Vec3

/-- The shared physics record `sharedSimState.current` (src/unnamed/part_000). -/
structure SharedSimState where
  photonPhase : ℝ
  photonDir : ℝ

/-- The props consumed by one run of the animate callback: running flag,
velocity ratio (`orbitSpeedMultiplier`, the spec writes it as beta), trail
toggle and the selected motion scenario. -/
structure Props where
  isRunning : Bool
  beta : ℝ
  showTrail : Bool
  mode : Mode

/-- `const SPEED_OF_LIGHT = 0.8` (SimulationCanvas.tsx line 607), the
reference light speed the spec calls `c_ref`. -/
def SPEED_OF_LIGHT : ℝ := 0.8

/-- `const CLOCK_TRAVEL_DIST = 6.0` (line 608), the mirror-to-mirror arm
length the spec calls `L`. -/
def CLOCK_TRAVEL_DIST : ℝ := 6.0

/-- `const CELESTIAL_DT = 0.02` (line 620), the fixed celestial tick. -/
def CELESTIAL_DT : ℝ := 0.02

/-- Half the clock height, `const range = 3.0` in both views. -/
def clockRange : ℝ := 3.0

/-- Trail point cap, `5000` (lines 511 and 801). -/
def trailCap : ℕ := 5000

/-- LINEAR trail eviction distance, `1200` (line 803). -/
def trailBehindDist : ℝ := 1200

/-- `const vShip = vRatio * SPEED_OF_LIGHT` (line 612): horizontal platform
speed. -/
def vShip (beta : ℝ) : ℝ := beta * SPEED_OF_LIGHT

/-- `const vVertical = Math.sqrt(1 - vRatio * vRatio) * SPEED_OF_LIGHT`
(line 615): photon speed along the clock axis. -/
def vVertical (beta : ℝ) : ℝ := Real.sqrt (1 - beta * beta) * SPEED_OF_LIGHT

/-- `const photonPhaseStep = vVertical / CLOCK_TRAVEL_DIST` (line 616):
phase advance per tick (the nominal tick increment is 1, fixed-step). -/
def photonPhaseStep (beta : ℝ) : ℝ := vVertical beta / CLOCK_TRAVEL_DIST

/-- `const contraction = Math.sqrt(1 - m*m)` (line 684): Lorentz
contraction factor. -/
def contraction (beta : ℝ) : ℝ := Real.sqrt (1 - beta * beta)

/-- Lines 648-650: advance the phase by `dir * step`, then the two
sequential clamp-and-flip conditionals. Returns (new phase, new dir). -/
def bounce (raw d : ℝ) : ℝ × ℝ :=
  let s1 : ℝ × ℝ := if raw ≥ 1 then (1, -1) else (raw, d)
  if s1.1 ≤ 0 then (0, 1) else s1

/-- The running-branch state update, lines 618-651 (star recycling only
moves background geometry, not simulation state). -/
def stepRunning (md : Mode) (beta : ℝ) (s : SimState) : SimState :=
  let pd := bounce (s.photonPhase + s.photonDir * photonPhaseStep beta) s.photonDir
  { s with
    celestialTime := s.celestialTime + CELESTIAL_DT
    shipTime := s.shipTime + vShip beta * 0.05
    linearOffset := if md = Mode.LINEAR then s.linearOffset + vShip beta else s.linearOffset
    photonPhase := pd.1
    photonDir := pd.2 }

/-- Ship mesh scale (lines 684-685 and 692-693): contraction along the
direction of travel in LINEAR, identity scale in the orbital scenarios. -/
def shipScale (md : Mode) (beta : ℝ) : Vec3 :=
  if md = Mode.LINEAR then ⟨contraction beta, 1, 1⟩ else ⟨1, 1, 1⟩

/-- `const shipAngle = state.shipTime * 2.5` (line 754). -/
def shipAngle (s : SimState) : ℝ := s.shipTime * 2.5

/-- `tiltAngle = 60 * (Math.PI / 180)` in GALAXY, otherwise 0
(lines 698 and 706). -/
def tiltAngle (md : Mode) : ℝ :=
  if md = Mode.GALAXY then 60 * (Real.pi / 180) else 0

/-- Position of the earth group per scenario (lines 713-749). -/
def earthPosition (md : Mode) (s : SimState) : Vec3 :=
  match md with
  | Mode.GALAXY =>
      let sunOrbitAngle := s.celestialTime * 0.1 + Real.pi
      let cx := Real.cos sunOrbitAngle * 300
      let cz := -Real.sin sunOrbitAngle * 300
      let earthAngle := s.celestialTime * 2.0
      let ex := Real.cos earthAngle * 60
      let ez := -Real.sin earthAngle * 60
      ⟨cx + ex, 0 + ez * Real.sin (tiltAngle Mode.GALAXY),
        cz + ez * Real.cos (tiltAngle Mode.GALAXY)⟩
  | Mode.SOLAR_SYSTEM =>
      ⟨Real.cos (s.celestialTime * 0.3) * 120, 0,
        -Real.sin (s.celestialTime * 0.3) * 120⟩
  | _ => ⟨0, 0, 0⟩

/-- `orbitCenter` (line 752): the origin for EARTH_ORBIT, otherwise the
earth group position. -/
def orbitCenter (md : Mode) (s : SimState) : Vec3 :=
  if md = Mode.EARTH_ORBIT then ⟨0, 0, 0⟩ else earthPosition md s

/-- Platform (ship group) world position: `(linearOffset, 0, 0)` in LINEAR
(line 678), otherwise the tilted circular orbit of lines 754-773. -/
def shipPosition (md : Mode) (s : SimState) : Vec3 :=
  if md = Mode.LINEAR then ⟨s.linearOffset, 0, 0⟩
  else
    let a := shipAngle s
    let sx := Real.cos a * 50
    let sz := -Real.sin a * 50
    let t := tiltAngle md
    let fy := if t ≠ 0 then sz * Real.sin t else 0
    let fz := if t ≠ 0 then sz * Real.cos t else sz
    shipPosition0 sx fy fz + orbitCenter md s
where
  shipPosition0 (a b c : ℝ) : Vec3 := ⟨a, b, c⟩

/-- Rotation about the x axis applied to a column vector. -/
def rotX (t : ℝ) (v : Vec3) : Vec3 :=
  ⟨v.x, Real.cos t * v.y - Real.sin t * v.z, Real.sin t * v.y + Real.cos t * v.z⟩

/-- Rotation about the y axis applied to a column vector. -/
def rotY (t : ℝ) (v : Vec3) : Vec3 :=
  ⟨Real.cos t * v.x + Real.sin t * v.z, v.y, -Real.sin t * v.x + Real.cos t * v.z⟩

/-- Rotation about the z axis applied to a column vector. -/
def rotZ (t : ℝ) (v : Vec3) : Vec3 :=
  ⟨Real.cos t * v.x - Real.sin t * v.y, Real.sin t * v.x + Real.cos t * v.y, v.z⟩

/-- THREE.Euler with the default XYZ order: matrix `Rx * Ry * Rz` applied
to a column vector. -/
def eulerXYZ (ex ey ez : ℝ) (v : Vec3) : Vec3 := rotX ex (rotY ey (rotZ ez v))

/-- `const localY = -range + (state.photonPhase * (range * 2))`
(line 791), the photon height in clock-local space; the relative view uses
the same formula (RelativeView.tsx line 126). -/
def photonLocalY (phase : ℝ) : ℝ := -clockRange + phase * (clockRange * 2)

/-- The clock-local photon offset rotated into world space by the world
quaternion of the clock apparatus (lines 784-793). In LINEAR the clock
euler is (0.3, pi/2, 0) under an unrotated ship mesh; the non-uniform
contraction scale on the ship mesh scales one matrix row, which the TRS
decomposition used by getWorldQuaternion absorbs entirely into the scale
component (the column norms of S times R put the scale on the columns), so
the decomposed rotation is the clock euler itself. In the orbital
scenarios the world rotation composes the ship euler
(tiltAngle, shipAngle, 0) with the clock euler (0, 0, 0.3). -/
def clockLocalOffset (md : Mode) (s : SimState) : Vec3 :=
  let v : Vec3 := ⟨0, photonLocalY s.photonPhase, 0⟩
  if md = Mode.LINEAR then eulerXYZ 0.3 (Real.pi / 2) 0 v
  else eulerXYZ (tiltAngle md) (shipAngle s) 0 (eulerXYZ 0 0 0.3 v)

/-- `finalPhotonPos` (line 795): clock world position plus the rotated
local photon offset. The clock apparatus sits at the ship group origin, so
its world position is the ship position. -/
def photonWorldPos (md : Mode) (s : SimState) : Vec3 :=
  shipPosition md s + clockLocalOffset md s

/-- The LINEAR-scenario eviction of lines 802-804: when the scenario is
LINEAR and the trail is non-empty, drop the oldest point if its x
coordinate has fallen more than `trailBehindDist` behind the current
offset. -/
def linearEvict (md : Mode) (offset : ℝ) (l2 : List Vec3) : List Vec3 :=
  if md = Mode.LINEAR then
    match l2 with
    | [] => []
    | q :: rest => if q.x < offset - trailBehindDist then rest else q :: rest
  else l2

/-- One application of the trail block body for a running, trail-enabled
tick (lines 800-804): push the photon position, evict the oldest point
past the cap, and in LINEAR additionally evict the oldest point when it
has fallen more than `trailBehindDist` behind the current offset. -/
def trailAfterPush (md : Mode) (offset : ℝ) (p : Vec3) (l : List Vec3) : List Vec3 :=
  let l1 := l ++ [p]
  let l2 := if l1.length > trailCap then l1.tail else l1
  linearEvict md offset l2

/-- The full trail update of one animate call (lines 799-806), including
the unconditional clear when the trail is disabled. -/
def trailStep (showTrail isRunning : Bool) (md : Mode) (offset : ℝ)
    (p : Vec3) (l : List Vec3) : List Vec3 :=
  let l1 := if showTrail && isRunning then trailAfterPush md offset p l else l
  if showTrail then l1 else []

/-- One full animate callback (lines 598-818) restricted to simulation
state: run the physics update when running, write the shared record
unconditionally (lines 654-657), then maintain the trail from the updated
photon world position. The incoming shared record is overwritten without
being read. -/
def animateTick (pr : Props) (s : SimState) (sh : SharedSimState) :
    SimState × SharedSimState :=
  let s1 := if pr.isRunning then stepRunning pr.mode pr.beta s else s
  let sh1 : SharedSimState := ⟨s1.photonPhase, s1.photonDir⟩
  let p := photonWorldPos pr.mode s1
  let s2 := { s1 with
    trailPoints := trailStep pr.showTrail pr.isRunning pr.mode s1.linearOffset p s1.trailPoints }
  (s2, sh1)

/-- A sequence of animate callbacks, one props record per tick. -/
def runTicks (prs : List Props) (st : SimState × SharedSimState) :
    SimState × SharedSimState :=
  prs.foldl (fun st pr => animateTick pr st.1 st.2) st

/-- The initial simulation state (line 522). -/
def defaultState : SimState :=
  ⟨0, 0, 0, 0.5, 1, []⟩

/-- The initial shared record (src/unnamed/part_000 line 16). -/
def defaultShared : SharedSimState := ⟨0.5, 1⟩

/-- The scenario-change reset effect (SimulationCanvas.tsx lines 548-563):
zero both clocks and the offset, recentre the photon, resync the shared
record and clear the trail. The LINEAR branch re-zeroes `linearOffset`. -/
def scenarioReset (md : Mode) (s : SimState) (sh : SharedSimState) :
    SimState × SharedSimState :=
  let s1 := { s with
    shipTime := (0 : ℝ)
    celestialTime := (0 : ℝ)
    linearOffset := (0 : ℝ)
    photonPhase := (0.5 : ℝ)
    photonDir := (1 : ℝ)
    trailPoints := ([] : List Vec3) }
  let s2 := if md = Mode.LINEAR then { s1 with linearOffset := (0 : ℝ) } else s1
  (s2, ⟨0.5, 1⟩)

/-- The photon height computed by the relative view from the shared record
(RelativeView.tsx lines 123-126): it reads `sharedSimState.current.photonPhase`
and applies the same local placement formula as the main view. -/
def relativeViewPhotonY (sh : SharedSimState) : ℝ :=
  -clockRange + sh.photonPhase * (clockRange * 2)

/-! Basic unfolding lemmas for the tick function. -/

lemma stepRunning_celestialTime (md : Mode) (beta : ℝ) (s : SimState) :
    (stepRunning md beta s).celestialTime = s.celestialTime + CELESTIAL_DT := rfl

lemma stepRunning_shipTime (md : Mode) (beta : ℝ) (s : SimState) :
    (stepRunning md beta s).shipTime = s.shipTime + vShip beta * 0.05 := rfl

lemma stepRunning_linearOffset (md : Mode) (beta : ℝ) (s : SimState) :
    (stepRunning md beta s).linearOffset =
      if md = Mode.LINEAR then s.linearOffset + vShip beta else s.linearOffset := rfl

lemma stepRunning_photonPhase (md : Mode) (beta : ℝ) (s : SimState) :
    (stepRunning md beta s).photonPhase =
      (bounce (s.photonPhase + s.photonDir * photonPhaseStep beta) s.photonDir).1 := rfl

lemma stepRunning_photonDir (md : Mode) (beta : ℝ) (s : SimState) :
    (stepRunning md beta s).photonDir =
      (bounce (s.photonPhase + s.photonDir * photonPhaseStep beta) s.photonDir).2 := rfl

lemma stepRunning_trailPoints (md : Mode) (beta : ℝ) (s : SimState) :
    (stepRunning md beta s).trailPoints = s.trailPoints := rfl

lemma animateTick_fst_photonPhase (pr : Props) (s : SimState) (sh : SharedSimState) :
    (animateTick pr s sh).1.photonPhase =
      (if pr.isRunning then stepRunning pr.mode pr.beta s else s).photonPhase := rfl

lemma animateTick_fst_photonDir (pr : Props) (s : SimState) (sh : SharedSimState) :
    (animateTick pr s sh).1.photonDir =
      (if pr.isRunning then stepRunning pr.mode pr.beta s else s).photonDir := rfl

lemma animateTick_snd (pr : Props) (s : SimState) (sh : SharedSimState) :
    (animateTick pr s sh).2 =
      ⟨(animateTick pr s sh).1.photonPhase, (animateTick pr s sh).1.photonDir⟩ := rfl

lemma animateTick_fst_trailPoints (pr : Props) (s : SimState) (sh : SharedSimState) :
    (animateTick pr s sh).1.trailPoints =
      trailStep pr.showTrail pr.isRunning pr.mode
        (if pr.isRunning then stepRunning pr.mode pr.beta s else s).linearOffset
        (photonWorldPos pr.mode (if pr.isRunning then stepRunning pr.mode pr.beta s else s))
        (if pr.isRunning then stepRunning pr.mode pr.beta s else s).trailPoints := rfl

lemma runTicks_nil (st : SimState × SharedSimState) : runTicks [] st = st := rfl

lemma runTicks_cons (pr : Props) (prs : List Props) (st : SimState × SharedSimState) :
    runTicks (pr :: prs) st = runTicks prs (animateTick pr st.1 st.2) := rfl

lemma runTicks_concat (prs : List Props) (pr : Props) (st : SimState × SharedSimState) :
    runTicks (prs ++ [pr]) st =
      animateTick pr (runTicks prs st).1 (runTicks prs st).2 := by
  simp [runTicks, List.foldl_append]

/-! Clamp-and-flip behaviour of `bounce`. -/

lemma bounce_high {raw : ℝ} (d : ℝ) (h : 1 ≤ raw) : bounce raw d = (1, -1) := by
  unfold bounce
  rw [if_pos h]
  norm_num

lemma bounce_low {raw : ℝ} (d : ℝ) (h : raw ≤ 0) : bounce raw d = (0, 1) := by
  have hn : ¬ (raw ≥ 1) := not_le.mpr (by linarith)
  have hp : ((raw, d) : ℝ × ℝ).1 ≤ 0 := h
  unfold bounce
  rw [if_neg hn, if_pos hp]

lemma bounce_mid {raw : ℝ} (d : ℝ) (h0 : 0 < raw) (h1 : raw < 1) :
    bounce raw d = (raw, d) := by
  have hn : ¬ (raw ≥ 1) := not_le.mpr h1
  have hp : ¬ (((raw, d) : ℝ × ℝ).1 ≤ 0) := not_le.mpr h0
  unfold bounce
  rw [if_neg hn, if_neg hp]

lemma bounce_unit (raw d : ℝ) :
    0 ≤ (bounce raw d).1 ∧ (bounce raw d).1 ≤ 1 := by
  rcases le_or_lt 1 raw with h | h
  · rw [bounce_high d h]; norm_num
  · rcases le_or_lt raw 0 with h0 | h0
    · rw [bounce_low d h0]; norm_num
    · rw [bounce_mid d h0 h]; exact ⟨le_of_lt h0, le_of_lt h⟩

/-! Phase invariant through single ticks and tick sequences. -/

lemma animateTick_phase_unit (pr : Props) (s : SimState) (sh : SharedSimState)
    (h0 : 0 ≤ s.photonPhase) (h1 : s.photonPhase ≤ 1) :
    0 ≤ (animateTick pr s sh).1.photonPhase ∧
      (animateTick pr s sh).1.photonPhase ≤ 1 := by
  rw [animateTick_fst_photonPhase]
  by_cases hr : pr.isRunning
  · rw [if_pos hr, stepRunning_photonPhase]
    exact bounce_unit _ _
  · rw [if_neg hr]
    exact ⟨h0, h1⟩

lemma runTicks_phase_unit (prs : List Props) (st : SimState × SharedSimState)
    (h0 : 0 ≤ st.1.photonPhase) (h1 : st.1.photonPhase ≤ 1) :
    0 ≤ (runTicks prs st).1.photonPhase ∧
      (runTicks prs st).1.photonPhase ≤ 1 := by
  induction prs generalizing st with
  | nil => exact ⟨h0, h1⟩
  | cons pr rest ih =>
      rw [runTicks_cons]
      have h := animateTick_phase_unit pr st.1 st.2 h0 h1
      exact ih (animateTick pr st.1 st.2) h.1 h.2

/-! Arithmetic helpers for concrete velocity ratios. -/

lemma sqrt_of_beta06 : Real.sqrt (1 - 0.6 * 0.6) = 0.8 := by
  rw [show (1 : ℝ) - 0.6 * 0.6 = 0.8 ^ 2 by norm_num]
  exact Real.sqrt_sq (by norm_num)

lemma photonPhaseStep_of_beta06 : photonPhaseStep 0.6 = 8 / 75 := by
  unfold photonPhaseStep vVertical SPEED_OF_LIGHT CLOCK_TRAVEL_DIST
  rw [sqrt_of_beta06]
  norm_num

lemma photonPhaseStep_pos {beta : ℝ} (h0 : 0 ≤ beta) (h1 : beta ≤ 0.99) :
    0 < photonPhaseStep beta := by
  unfold photonPhaseStep vVertical SPEED_OF_LIGHT CLOCK_TRAVEL_DIST
  have hb : beta * beta < 1 := by nlinarith
  have hs : 0 < Real.sqrt (1 - beta * beta) := Real.sqrt_pos.mpr (by linarith)
  exact div_pos (mul_pos hs (by norm_num)) (by norm_num)

/-! Claim theorems. -/

/-- Claim C1: cross-view consistency. For every sequence of ticks ending
in a tick N, the photon phase (and direction) that the relative view uses
to place its photon equals the value written to the shared physics record
by the frame driver at that tick, which in turn equals the internal state
value; the relative view computes its photon height purely from the shared
record (the same local placement formula as the main view), never deriving
phase independently from beta or time. -/
theorem cross_view_reads_shared_phase (prs : List Props) (pr : Props)
    (s0 : SimState) (sh0 : SharedSimState) :
    (runTicks (prs ++ [pr]) (s0, sh0)).2.photonPhase =
        (runTicks (prs ++ [pr]) (s0, sh0)).1.photonPhase
    ∧ (runTicks (prs ++ [pr]) (s0, sh0)).2.photonDir =
        (runTicks (prs ++ [pr]) (s0, sh0)).1.photonDir
    ∧ relativeViewPhotonY (runTicks (prs ++ [pr]) (s0, sh0)).2 =
        photonLocalY ((runTicks (prs ++ [pr]) (s0, sh0)).1.photonPhase) := by
  rw [runTicks_concat]
  exact ⟨rfl, rfl, rfl⟩

/-- Claim C10: the frame driver writes `photonPhase` and `photonDir` to
the shared physics record on every animate tick unconditionally, whatever
the incoming record held and whether or not the simulation is running, and
the scenario-reset effect does the same; after each, the shared record
equals the internal state exactly. -/
theorem shared_record_unconditional_sync (pr : Props) (s : SimState)
    (sh : SharedSimState) (md : Mode) (s2 : SimState) (sh2 : SharedSimState) :
    (animateTick pr s sh).2.photonPhase = (animateTick pr s sh).1.photonPhase
    ∧ (animateTick pr s sh).2.photonDir = (animateTick pr s sh).1.photonDir
    ∧ (scenarioReset md s2 sh2).2.photonPhase = (scenarioReset md s2 sh2).1.photonPhase
    ∧ (scenarioReset md s2 sh2).2.photonDir = (scenarioReset md s2 sh2).1.photonDir := by
  refine ⟨rfl, rfl, ?_, ?_⟩ <;>
    · unfold scenarioReset
      by_cases h : md = Mode.LINEAR <;> simp [h]

/-- Claim C9: a scenario change or explicit reset restores, regardless of
prior state, the fixed default state (both clocks and the linear offset
zero, phase 0.5, direction +1, empty trail) and resets the shared record
to phase 0.5, direction +1; performing the reset twice yields the same
state as performing it once. -/
theorem reset_zeroes_and_idempotent (md : Mode) (s : SimState) (sh : SharedSimState) :
    scenarioReset md s sh = (defaultState, defaultShared)
    ∧ scenarioReset md (scenarioReset md s sh).1 (scenarioReset md s sh).2 =
        scenarioReset md s sh := by
  have h : ∀ (s1 : SimState) (sh1 : SharedSimState),
      scenarioReset md s1 sh1 = (defaultState, defaultShared) := by
    intro s1 sh1
    unfold scenarioReset
    by_cases hmd : md = Mode.LINEAR <;> simp [hmd] <;> exact ⟨rfl, rfl⟩
  refine ⟨h s sh, ?_⟩
  rw [h s sh, h defaultState defaultShared]

/-- Claim C5: on every running tick `celestialTime` advances by the fixed
constant `CELESTIAL_DT` whose value does not depend on beta, while
`shipTime` (the platform clock) advances by `beta * SPEED_OF_LIGHT * 0.05`,
an increment proportional to beta times the reference light speed; both
clocks are monotonically non-decreasing while running, and the platform
clock is frozen exactly when beta is zero. -/
theorem dual_clock_advance (md : Mode) (beta : ℝ) (s : SimState)
    (hb : 0 ≤ beta) :
    (stepRunning md beta s).celestialTime = s.celestialTime + CELESTIAL_DT
    ∧ (stepRunning md beta s).shipTime = s.shipTime + (beta * SPEED_OF_LIGHT) * 0.05
    ∧ s.celestialTime ≤ (stepRunning md beta s).celestialTime
    ∧ s.shipTime ≤ (stepRunning md beta s).shipTime
    ∧ ((stepRunning md beta s).shipTime = s.shipTime ↔ beta = 0) := by
  refine ⟨stepRunning_celestialTime md beta s, stepRunning_shipTime md beta s, ?_, ?_, ?_⟩
  · rw [stepRunning_celestialTime]
    unfold CELESTIAL_DT
    linarith
  · rw [stepRunning_shipTime]
    unfold vShip SPEED_OF_LIGHT
    nlinarith
  · rw [stepRunning_shipTime]
    unfold vShip SPEED_OF_LIGHT
    constructor
    · intro h
      nlinarith [h]
    · intro h
      rw [h]
      ring

/-- Witness for `dual_clock_advance` at beta = 0.5 from the default state. -/
theorem dual_clock_advance_witness :
    (0 : ℝ) ≤ 0.5
    ∧ (stepRunning Mode.LINEAR 0.5 defaultState).celestialTime =
        defaultState.celestialTime + CELESTIAL_DT :=
  ⟨by norm_num, (dual_clock_advance Mode.LINEAR 0.5 defaultState (by norm_num)).1⟩

/-- Claim C4: the contraction factor `sqrt(1 - beta^2)` is applied as the
ship scale only along the x axis, the direction of travel (the LINEAR
platform position varies only in x), the other two scale axes staying 1;
the scale is the identity in every orbital scenario; and at beta = 0 the
contraction is 1 and the vertical photon speed is the full reference light
speed, reproducing the unmodified clock. -/
theorem contraction_scale_linear_only (md : Mode) (beta : ℝ) (s : SimState)
    (hmd : md ≠ Mode.LINEAR) :
    shipScale Mode.LINEAR beta = ⟨contraction beta, 1, 1⟩
    ∧ shipScale md beta = ⟨1, 1, 1⟩
    ∧ contraction beta = Real.sqrt (1 - beta * beta)
    ∧ shipPosition Mode.LINEAR s = ⟨s.linearOffset, 0, 0⟩
    ∧ contraction 0 = 1
    ∧ vVertical 0 = SPEED_OF_LIGHT := by
  refine ⟨by simp [shipScale], by simp [shipScale, hmd], rfl, by simp [shipPosition], ?_, ?_⟩
  · unfold contraction
    rw [show (1 : ℝ) - 0 * 0 = 1 by norm_num, Real.sqrt_one]
  · unfold vVertical
    rw [show (1 : ℝ) - 0 * 0 = 1 by norm_num, Real.sqrt_one, one_mul]

/-- Witness for `contraction_scale_linear_only` in the GALAXY scenario. -/
theorem contraction_scale_linear_only_witness :
    Mode.GALAXY ≠ Mode.LINEAR
    ∧ shipScale Mode.GALAXY 0.3 = ⟨1, 1, 1⟩ :=
  ⟨by decide, (contraction_scale_linear_only Mode.GALAXY 0.3 defaultState (by decide)).2.1⟩

/-- Claim C3: each running tick the kinematics engine computes the
vertical photon speed `sqrt(1 - beta^2) * SPEED_OF_LIGHT`, the horizontal
platform speed `beta * SPEED_OF_LIGHT`, and (absent a bounce) advances the
phase by exactly `verticalSpeed / CLOCK_TRAVEL_DIST`, a fixed per-tick
step with nominal tick increment 1, not a wall-clock delta; at beta = 0.6
the computed vertical speed is 0.8 times the reference speed, the
horizontal speed is 0.6 times it, and the contraction is 0.8, each within
tolerance 1e-6 (here: exactly). -/
theorem kinematics_per_tick_formulas (md : Mode) (beta : ℝ) (s : SimState)
    (hno0 : 0 < s.photonPhase + s.photonDir * photonPhaseStep beta)
    (hno1 : s.photonPhase + s.photonDir * photonPhaseStep beta < 1) :
    (stepRunning md beta s).photonPhase =
        s.photonPhase + s.photonDir *
          (Real.sqrt (1 - beta * beta) * SPEED_OF_LIGHT / CLOCK_TRAVEL_DIST)
    ∧ vShip beta = beta * SPEED_OF_LIGHT
    ∧ |vVertical 0.6 - 0.8 * SPEED_OF_LIGHT| ≤ 1 / 1000000
    ∧ |vShip 0.6 - 0.6 * SPEED_OF_LIGHT| ≤ 1 / 1000000
    ∧ |contraction 0.6 - 0.8| ≤ 1 / 1000000 := by
  refine ⟨?_, rfl, ?_, ?_, ?_⟩
  · rw [stepRunning_photonPhase, bounce_mid _ hno0 hno1]
    rfl
  · unfold vVertical SPEED_OF_LIGHT
    rw [sqrt_of_beta06]
    norm_num
  · unfold vShip SPEED_OF_LIGHT
    norm_num
  · unfold contraction
    rw [sqrt_of_beta06]
    norm_num

/-- Witness for `kinematics_per_tick_formulas` at beta = 0.6 from the
default state: one tick advances the phase from 0.5 by 8/75 without
reaching a mirror. -/
theorem kinematics_per_tick_formulas_witness :
    (0 : ℝ) < defaultState.photonPhase +
        defaultState.photonDir * photonPhaseStep 0.6
    ∧ defaultState.photonPhase + defaultState.photonDir * photonPhaseStep 0.6 < 1
    ∧ (stepRunning Mode.EARTH_ORBIT 0.6 defaultState).photonPhase =
        defaultState.photonPhase + defaultState.photonDir *
          (Real.sqrt (1 - 0.6 * 0.6) * SPEED_OF_LIGHT / CLOCK_TRAVEL_DIST) := by
  have h0 : (0 : ℝ) < defaultState.photonPhase +
      defaultState.photonDir * photonPhaseStep 0.6 := by
    rw [photonPhaseStep_of_beta06]
    unfold defaultState
    norm_num
  have h1 : defaultState.photonPhase + defaultState.photonDir * photonPhaseStep 0.6 < 1 := by
    rw [photonPhaseStep_of_beta06]
    unfold defaultState
    norm_num
  exact ⟨h0, h1, (kinematics_per_tick_formulas Mode.EARTH_ORBIT 0.6 defaultState h0 h1).1⟩

/-- Claim C2: for every sequence of running ticks whose velocity ratios
lie in [0, 0.99], the photon phase stays within [0, 1]; on any single
running tick, when the raw update would carry the phase to or past a
bound, the phase is clamped exactly to that bound (no overshoot) and the
direction flips sign in that same tick, while strictly inside the bounds
the phase advances by exactly the step and the direction is unchanged, so
the direction flips exactly once per boundary crossing. -/
theorem photon_phase_clamped_bounce (prs : List Props)
    (s0 : SimState) (sh0 : SharedSimState)
    (hprs : ∀ pr ∈ prs, pr.isRunning = true ∧ 0 ≤ pr.beta ∧ pr.beta ≤ 0.99)
    (h0 : 0 ≤ s0.photonPhase) (h1 : s0.photonPhase ≤ 1) :
    (0 ≤ (runTicks prs (s0, sh0)).1.photonPhase
      ∧ (runTicks prs (s0, sh0)).1.photonPhase ≤ 1)
    ∧ (∀ (md : Mode) (beta : ℝ) (s : SimState),
        0 ≤ beta → beta ≤ 0.99 →
        (s.photonDir = 1 ∨ s.photonDir = -1) →
        0 ≤ s.photonPhase → s.photonPhase ≤ 1 →
        (1 ≤ s.photonPhase + s.photonDir * photonPhaseStep beta →
          (stepRunning md beta s).photonPhase = 1
          ∧ (stepRunning md beta s).photonDir = -s.photonDir)
        ∧ (s.photonPhase + s.photonDir * photonPhaseStep beta ≤ 0 →
          (stepRunning md beta s).photonPhase = 0
          ∧ (stepRunning md beta s).photonDir = -s.photonDir)
        ∧ (0 < s.photonPhase + s.photonDir * photonPhaseStep beta →
          s.photonPhase + s.photonDir * photonPhaseStep beta < 1 →
          (stepRunning md beta s).photonPhase =
            s.photonPhase + s.photonDir * photonPhaseStep beta
          ∧ (stepRunning md beta s).photonDir = s.photonDir)) := by
  refine ⟨runTicks_phase_unit prs (s0, sh0) h0 h1, ?_⟩
  intro md beta s hb0 hb1 hdir hp0 hp1
  have hstep : 0 < photonPhaseStep beta := photonPhaseStep_pos hb0 hb1
  refine ⟨?_, ?_, ?_⟩
  · intro hraw
    have hd : s.photonDir = 1 := by
      rcases hdir with hd | hd
      · exact hd
      · exfalso
        rw [hd] at hraw
        linarith
    rw [stepRunning_photonPhase, stepRunning_photonDir, bounce_high _ hraw, hd]
    norm_num
  · intro hraw
    have hd : s.photonDir = -1 := by
      rcases hdir with hd | hd
      · exfalso
        rw [hd] at hraw
        linarith
      · exact hd
    rw [stepRunning_photonPhase, stepRunning_photonDir, bounce_low _ hraw, hd]
    norm_num
  · intro hr0 hr1
    rw [stepRunning_photonPhase, stepRunning_photonDir, bounce_mid _ hr0 hr1]
    exact ⟨rfl, rfl⟩

/-- Witness for `photon_phase_clamped_bounce`: one running tick at
beta = 0.6 from the default state keeps the phase within [0, 1]. -/
theorem photon_phase_clamped_bounce_witness :
    0 ≤ (runTicks [⟨true, 0.6, true, Mode.EARTH_ORBIT⟩]
          (defaultState, defaultShared)).1.photonPhase
    ∧ (runTicks [⟨true, 0.6, true, Mode.EARTH_ORBIT⟩]
          (defaultState, defaultShared)).1.photonPhase ≤ 1 :=
  (photon_phase_clamped_bounce [⟨true, 0.6, true, Mode.EARTH_ORBIT⟩]
      defaultState defaultShared
      (by
        intro pr hpr
        rw [List.mem_singleton] at hpr
        subst hpr
        refine ⟨rfl, by norm_num, by norm_num⟩)
      (by unfold defaultState; norm_num)
      (by unfold defaultState; norm_num)).1

/-- Claim C6 counterexample: a paused tick does not always leave the
simulation state unchanged. With the trail feature disabled, the animate
callback clears `trailPoints` even while paused (the clear on line 806 is
outside the `isRunning` guard), so a paused tick from a state with a
non-empty trail and the trail toggle off mutates the state. -/
theorem paused_tick_mutation_cex :
    (animateTick ⟨false, 0, false, Mode.EARTH_ORBIT⟩
        { defaultState with trailPoints := [⟨0, 0, 0⟩] } defaultShared).1 ≠
      { defaultState with trailPoints := [⟨0, 0, 0⟩] } := by
  intro h
  have h2 := congrArg SimState.trailPoints h
  simp only [animateTick, trailStep] at h2
  norm_num at h2

/-- Claim C6 as amended: when the simulation is not running, a tick leaves
`celestialTime`, `shipTime`, `linearOffset`, `photonPhase` and `photonDir`
unchanged; `trailPoints` is also unchanged whenever the trail feature is
enabled (hence pausing and resuming with no time passing leaves the state
unchanged), but with the trail feature disabled the paused tick clears
`trailPoints` — the one paused-tick mutation. -/
theorem paused_tick_preserves_core_state (pr : Props) (s : SimState)
    (sh : SharedSimState) (hrun : pr.isRunning = false) :
    (animateTick pr s sh).1.celestialTime = s.celestialTime
    ∧ (animateTick pr s sh).1.shipTime = s.shipTime
    ∧ (animateTick pr s sh).1.linearOffset = s.linearOffset
    ∧ (animateTick pr s sh).1.photonPhase = s.photonPhase
    ∧ (animateTick pr s sh).1.photonDir = s.photonDir
    ∧ (pr.showTrail = true → (animateTick pr s sh).1 = s)
    ∧ (pr.showTrail = false → (animateTick pr s sh).1.trailPoints = []) := by
  refine ⟨?_, ?_, ?_, ?_, ?_, ?_, ?_⟩ <;>
    simp [animateTick, trailStep, hrun] <;> intro ht <;> simp [ht]

/-- Witness for `paused_tick_preserves_core_state`: a paused tick with the
trail enabled leaves the default state untouched. -/
theorem paused_tick_preserves_core_state_witness :
    (⟨false, 0.4, true, Mode.LINEAR⟩ : Props).isRunning = false
    ∧ (animateTick ⟨false, 0.4, true, Mode.LINEAR⟩ defaultState defaultShared).1 =
        defaultState :=
  ⟨rfl, (paused_tick_preserves_core_state ⟨false, 0.4, true, Mode.LINEAR⟩
      defaultState defaultShared rfl).2.2.2.2.2.1 rfl⟩

/-! Trail helper lemmas. -/

lemma Vec3_add_x (a b : Vec3) : (a + b).x = a.x + b.x := rfl

lemma animateTick_fst_linearOffset (pr : Props) (s : SimState) (sh : SharedSimState) :
    (animateTick pr s sh).1.linearOffset =
      (if pr.isRunning then stepRunning pr.mode pr.beta s else s).linearOffset := rfl

lemma trailBehindDist_pos : (0 : ℝ) < trailBehindDist := by
  unfold trailBehindDist
  norm_num

/-- In LINEAR the photon world x coordinate is exactly the platform
offset: the clock sits at the ship origin and the rotated clock-local
offset has no x component. -/
lemma photonWorldPos_linear_x (s : SimState) :
    (photonWorldPos Mode.LINEAR s).x = s.linearOffset := by
  rw [photonWorldPos, Vec3_add_x]
  simp [shipPosition, clockLocalOffset, eulerXYZ, rotX, rotY, rotZ,
    Real.sin_zero, Real.cos_zero]

lemma linearEvict_subset (md : Mode) (off : ℝ) (l2 : List Vec3) (q : Vec3)
    (h : q ∈ linearEvict md off l2) : q ∈ l2 := by
  unfold linearEvict at h
  by_cases hmd : md = Mode.LINEAR
  · rw [if_pos hmd] at h
    cases l2 with
    | nil => simpa using h
    | cons a rest =>
        have h2 : q ∈ (if a.x < off - trailBehindDist then rest else a :: rest) := h
        by_cases ha : a.x < off - trailBehindDist
        · rw [if_pos ha] at h2
          exact List.mem_cons_of_mem a h2
        · rwa [if_neg ha] at h2
  · rwa [if_neg hmd] at h

lemma linearEvict_suffix (md : Mode) (off : ℝ) (l2 : List Vec3) :
    List.IsSuffix (linearEvict md off l2) l2 := by
  unfold linearEvict
  by_cases hmd : md = Mode.LINEAR
  · rw [if_pos hmd]
    cases l2 with
    | nil => exact List.suffix_refl []
    | cons a rest =>
        show List.IsSuffix (if a.x < off - trailBehindDist then rest else a :: rest) (a :: rest)
        by_cases ha : a.x < off - trailBehindDist
        · rw [if_pos ha]
          exact ⟨[a], rfl⟩
        · rw [if_neg ha]
  · rw [if_neg hmd]

lemma linearEvict_length_le (md : Mode) (off : ℝ) (l2 : List Vec3) :
    (linearEvict md off l2).length ≤ l2.length :=
  List.IsSuffix.length_le (linearEvict_suffix md off l2)

lemma trailAfterPush_length_le (md : Mode) (off : ℝ) (p : Vec3) (l : List Vec3)
    (h : l.length ≤ trailCap) :
    (trailAfterPush md off p l).length ≤ trailCap := by
  show (linearEvict md off
      (if (l ++ [p]).length > trailCap then (l ++ [p]).tail else l ++ [p])).length ≤ trailCap
  by_cases hc : (l ++ [p]).length > trailCap
  · rw [if_pos hc]
    refine le_trans (linearEvict_length_le md off _) ?_
    simpa using h
  · rw [if_neg hc]
    refine le_trans (linearEvict_length_le md off _) ?_
    omega

lemma trailAfterPush_suffix (md : Mode) (off : ℝ) (p : Vec3) (l : List Vec3) :
    List.IsSuffix (trailAfterPush md off p l) (l ++ [p]) := by
  show List.IsSuffix (linearEvict md off
      (if (l ++ [p]).length > trailCap then (l ++ [p]).tail else l ++ [p])) (l ++ [p])
  by_cases hc : (l ++ [p]).length > trailCap
  · rw [if_pos hc]
    exact List.IsSuffix.trans (linearEvict_suffix md off _) (List.tail_suffix _)
  · rw [if_neg hc]
    exact linearEvict_suffix md off _

lemma trailStep_length_le (st rn : Bool) (md : Mode) (off : ℝ) (p : Vec3)
    (l : List Vec3) (h : l.length ≤ trailCap) :
    (trailStep st rn md off p l).length ≤ trailCap := by
  unfold trailStep
  cases st with
  | false => simp
  | true =>
      cases rn with
      | false => simpa using h
      | true => simpa using trailAfterPush_length_le md off p l h

lemma animateTick_trail_length_le (pr : Props) (s : SimState) (sh : SharedSimState)
    (h : s.trailPoints.length ≤ trailCap) :
    (animateTick pr s sh).1.trailPoints.length ≤ trailCap := by
  rw [animateTick_fst_trailPoints]
  by_cases hr : pr.isRunning <;>
    simp only [hr, if_pos, if_neg, Bool.false_eq_true, ite_true, ite_false] <;>
    apply trailStep_length_le <;>
    simp [stepRunning_trailPoints, h]

lemma runTicks_trail_length_le (prs : List Props) (st : SimState × SharedSimState)
    (h : st.1.trailPoints.length ≤ trailCap) :
    (runTicks prs st).1.trailPoints.length ≤ trailCap := by
  induction prs generalizing st with
  | nil => exact h
  | cons pr rest ih =>
      rw [runTicks_cons]
      exact ih _ (animateTick_trail_length_le pr st.1 st.2 h)

/-- Pushing onto an empty trail keeps exactly the new point: the cap is
not exceeded and the freshly appended photon position is never behind the
platform (in LINEAR its x coordinate equals the current offset). -/
lemma trailAfterPush_nil (md : Mode) (s1 : SimState) :
    trailAfterPush md s1.linearOffset (photonWorldPos md s1) [] = [photonWorldPos md s1] := by
  show linearEvict md s1.linearOffset
      (if (([] : List Vec3) ++ [photonWorldPos md s1]).length > trailCap
        then (([] : List Vec3) ++ [photonWorldPos md s1]).tail
        else ([] : List Vec3) ++ [photonWorldPos md s1]) = [photonWorldPos md s1]
  rw [if_neg (by simp [trailCap])]
  simp only [List.nil_append]
  unfold linearEvict
  by_cases hmd : md = Mode.LINEAR
  · rw [if_pos hmd]
    show (if (photonWorldPos md s1).x < s1.linearOffset - trailBehindDist
        then [] else [photonWorldPos md s1]) = [photonWorldPos md s1]
    rw [if_neg ?hx]
    case hx =>
      subst hmd
      rw [photonWorldPos_linear_x]
      have := trailBehindDist_pos
      intro hlt
      linarith
  · rw [if_neg hmd]

/-- Claim C7: after any sequence of ticks from a state within the cap, the
trail never exceeds `trailCap` points; on a running trail-enabled tick the
new trail is a suffix of the old trail with the current photon position
appended (so eviction removes only oldest points, FIFO); a tick with the
trail disabled clears the buffer immediately; and a running trail-enabled
tick from an empty buffer yields exactly the one new point, so re-enabling
starts from an empty buffer before the next point is appended. -/
theorem trail_bounded_fifo_clear (prs : List Props) (s0 : SimState)
    (sh0 : SharedSimState) (hlen : s0.trailPoints.length ≤ trailCap) :
    (runTicks prs (s0, sh0)).1.trailPoints.length ≤ trailCap
    ∧ (∀ (pr : Props) (s : SimState) (sh : SharedSimState), pr.showTrail = false →
        (animateTick pr s sh).1.trailPoints = [])
    ∧ (∀ (pr : Props) (s : SimState) (sh : SharedSimState),
        pr.showTrail = true → pr.isRunning = true →
        List.IsSuffix (animateTick pr s sh).1.trailPoints
          (s.trailPoints ++ [photonWorldPos pr.mode (stepRunning pr.mode pr.beta s)]))
    ∧ (∀ (pr : Props) (s : SimState) (sh : SharedSimState),
        pr.showTrail = true → pr.isRunning = true → s.trailPoints = [] →
        (animateTick pr s sh).1.trailPoints =
          [photonWorldPos pr.mode (stepRunning pr.mode pr.beta s)]) := by
  refine ⟨runTicks_trail_length_le prs (s0, sh0) hlen, ?_, ?_, ?_⟩
  · intro pr s sh ht
    rw [animateTick_fst_trailPoints]
    unfold trailStep
    simp [ht]
  · intro pr s sh ht hr
    have h := trailAfterPush_suffix pr.mode
      (stepRunning pr.mode pr.beta s).linearOffset
      (photonWorldPos pr.mode (stepRunning pr.mode pr.beta s)) s.trailPoints
    rw [animateTick_fst_trailPoints, ht, hr]
    simpa [trailStep, stepRunning_trailPoints] using h
  · intro pr s sh ht hr hnil
    rw [animateTick_fst_trailPoints, ht, hr]
    have h := trailAfterPush_nil pr.mode (stepRunning pr.mode pr.beta s)
    simpa [trailStep, stepRunning_trailPoints, hnil] using h

/-- Witness for `trail_bounded_fifo_clear`: one running tick from the
default (empty-trail) state stays within the cap. -/
theorem trail_bounded_fifo_clear_witness :
    defaultState.trailPoints.length ≤ trailCap
    ∧ (runTicks [⟨true, 0.2, true, Mode.LINEAR⟩]
        (defaultState, defaultShared)).1.trailPoints.length ≤ trailCap := by
  have h : defaultState.trailPoints.length ≤ trailCap := by
    unfold defaultState trailCap
    simp
  exact ⟨h, (trail_bounded_fifo_clear [⟨true, 0.2, true, Mode.LINEAR⟩]
      defaultState defaultShared h).1⟩

lemma mem_append_singleton {q p : Vec3} {t : List Vec3} (h : q ∈ t ++ [p]) :
    q ∈ t ∨ q = p := by
  rcases List.mem_append.mp h with h | h
  · exact Or.inl h
  · exact Or.inr (List.mem_singleton.mp h)

/-- If the appended point and every pre-tick point except possibly the
oldest are within `trailBehindDist` of the offset, then after the push and
evictions no retained point is behind: the single oldest-point check
suffices exactly when at most one point is stale. -/
lemma trailAfterPush_behind (off : ℝ) (p : Vec3) (l : List Vec3)
    (hp : off - trailBehindDist ≤ p.x)
    (htail : ∀ q ∈ l.tail, off - trailBehindDist ≤ q.x) :
    ∀ q ∈ trailAfterPush Mode.LINEAR off p l, off - trailBehindDist ≤ q.x := by
  intro q hq
  have hq2 : q ∈ linearEvict Mode.LINEAR off
      (if (l ++ [p]).length > trailCap then (l ++ [p]).tail else l ++ [p]) := hq
  by_cases hc : (l ++ [p]).length > trailCap
  · rw [if_pos hc] at hq2
    have hq3 := linearEvict_subset _ _ _ _ hq2
    cases l with
    | nil => simp [trailCap] at hc
    | cons a t =>
        have hq4 : q ∈ t ++ [p] := hq3
        rcases mem_append_singleton hq4 with h | h
        · exact htail q h
        · rw [h]
          exact hp
  · rw [if_neg hc] at hq2
    cases l with
    | nil =>
        have hq3 := linearEvict_subset _ _ _ _ hq2
        have hq4 : q = p := by simpa using hq3
        rw [hq4]
        exact hp
    | cons a t =>
        have hq3 : q ∈ linearEvict Mode.LINEAR off (a :: (t ++ [p])) := by
          simpa using hq2
        have hq4 : q ∈ (if a.x < off - trailBehindDist then t ++ [p]
            else a :: (t ++ [p])) := by
          unfold linearEvict at hq3
          rwa [if_pos rfl] at hq3
        by_cases ha : a.x < off - trailBehindDist
        · rw [if_pos ha] at hq4
          rcases mem_append_singleton hq4 with h | h
          · exact htail q h
          · rw [h]
            exact hp
        · rw [if_neg ha] at hq4
          rcases List.mem_cons.mp hq4 with h | h
          · rw [h]
            exact not_lt.mp ha
          · rcases mem_append_singleton h with h2 | h2
            · exact htail q h2
            · rw [h2]
              exact hp

/-- A LINEAR state with two trail points far behind the platform. -/
def staleTrailState : SimState :=
  { celestialTime := 0, shipTime := 0, linearOffset := 2000, photonPhase := 0.5,
    photonDir := 1, trailPoints := [⟨0, 0, 0⟩, ⟨0, 0, 0⟩] }

/-- Claim C8 counterexample: the LINEAR eviction checks only the oldest
trail point once per tick, so when two points are more than
`trailBehindDist` behind the platform, a running trail-enabled tick evicts
one of them and retains the other: the retained point is still more than
the fixed distance behind the updated offset. -/
theorem linear_stale_retained_cex :
    ∃ q ∈ (animateTick ⟨true, 0.6, true, Mode.LINEAR⟩
        staleTrailState defaultShared).1.trailPoints,
      q.x < (animateTick ⟨true, 0.6, true, Mode.LINEAR⟩
        staleTrailState defaultShared).1.linearOffset - trailBehindDist := by
  have ho : (stepRunning Mode.LINEAR 0.6 staleTrailState).linearOffset = 2000.48 := by
    rw [stepRunning_linearOffset, if_pos rfl]
    unfold staleTrailState vShip SPEED_OF_LIGHT
    norm_num
  have hoff : (animateTick ⟨true, 0.6, true, Mode.LINEAR⟩
      staleTrailState defaultShared).1.linearOffset = 2000.48 := ho
  have htrail : (animateTick ⟨true, 0.6, true, Mode.LINEAR⟩
      staleTrailState defaultShared).1.trailPoints =
      [⟨0, 0, 0⟩, photonWorldPos Mode.LINEAR (stepRunning Mode.LINEAR 0.6 staleTrailState)] := by
    have h1 : (animateTick ⟨true, 0.6, true, Mode.LINEAR⟩
        staleTrailState defaultShared).1.trailPoints =
        linearEvict Mode.LINEAR (stepRunning Mode.LINEAR 0.6 staleTrailState).linearOffset
          (if ((⟨0, 0, 0⟩ : Vec3) :: (⟨0, 0, 0⟩ : Vec3) ::
              [photonWorldPos Mode.LINEAR (stepRunning Mode.LINEAR 0.6 staleTrailState)]).length > trailCap
            then ((⟨0, 0, 0⟩ : Vec3) :: (⟨0, 0, 0⟩ : Vec3) ::
              [photonWorldPos Mode.LINEAR (stepRunning Mode.LINEAR 0.6 staleTrailState)]).tail
            else (⟨0, 0, 0⟩ : Vec3) :: (⟨0, 0, 0⟩ : Vec3) ::
              [photonWorldPos Mode.LINEAR (stepRunning Mode.LINEAR 0.6 staleTrailState)]) := rfl
    rw [h1, if_neg (by norm_num [trailCap])]
    unfold linearEvict
    rw [if_pos rfl]
    have h2 : (linearEvict.match_1 (motive := fun _ => List Vec3)
        ((⟨0, 0, 0⟩ : Vec3) :: (⟨0, 0, 0⟩ : Vec3) ::
          [photonWorldPos Mode.LINEAR (stepRunning Mode.LINEAR 0.6 staleTrailState)])
        (fun _ => [])
        (fun q rest => if q.x < (stepRunning Mode.LINEAR 0.6 staleTrailState).linearOffset
            - trailBehindDist then rest else q :: rest)) =
        (if (⟨0, 0, 0⟩ : Vec3).x < (stepRunning Mode.LINEAR 0.6 staleTrailState).linearOffset
            - trailBehindDist
          then (⟨0, 0, 0⟩ : Vec3) ::
            [photonWorldPos Mode.LINEAR (stepRunning Mode.LINEAR 0.6 staleTrailState)]
          else (⟨0, 0, 0⟩ : Vec3) :: (⟨0, 0, 0⟩ : Vec3) ::
            [photonWorldPos Mode.LINEAR (stepRunning Mode.LINEAR 0.6 staleTrailState)]) := rfl
    rw [h2, if_pos (by rw [ho]; norm_num [trailBehindDist])]
  refine ⟨⟨0, 0, 0⟩, ?_, ?_⟩
  · rw [htrail]
    exact List.mem_cons_self _ _
  · rw [hoff]
    norm_num [trailBehindDist]

/-- Claim C8 as amended: in the LINEAR scenario a running trail-enabled
tick checks only the oldest trail point against the fixed distance and
evicts at most that one point; consequently, provided every retained point
except possibly the oldest is within `trailBehindDist` of the updated
offset, after the tick no retained point is more than that fixed distance
behind the platform. (The counterexample shows the unconditional claim
fails when two or more points are simultaneously behind.) -/
theorem linear_evicts_oldest_behind (pr : Props) (s : SimState) (sh : SharedSimState)
    (hmd : pr.mode = Mode.LINEAR) (hrun : pr.isRunning = true) (htr : pr.showTrail = true)
    (htail : ∀ q ∈ s.trailPoints.tail,
      (stepRunning pr.mode pr.beta s).linearOffset - trailBehindDist ≤ q.x) :
    ∀ q ∈ (animateTick pr s sh).1.trailPoints,
      (animateTick pr s sh).1.linearOffset - trailBehindDist ≤ q.x := by
  intro q hq
  rw [animateTick_fst_trailPoints, hrun, htr] at hq
  have hq2 : q ∈ trailAfterPush pr.mode (stepRunning pr.mode pr.beta s).linearOffset
      (photonWorldPos pr.mode (stepRunning pr.mode pr.beta s)) s.trailPoints := hq
  rw [hmd] at hq2 htail
  have hgoal : (animateTick pr s sh).1.linearOffset =
      (stepRunning pr.mode pr.beta s).linearOffset := by
    rw [animateTick_fst_linearOffset, hrun]
    simp
  rw [hgoal, hmd]
  refine trailAfterPush_behind _ _ _ ?_ htail q hq2
  rw [photonWorldPos_linear_x]
  have := trailBehindDist_pos
  linarith

/-- Witness for `linear_evicts_oldest_behind`: one running LINEAR tick
with the trail enabled from the default (empty-trail) state. -/
theorem linear_evicts_oldest_behind_witness :
    (⟨true, 0.6, true, Mode.LINEAR⟩ : Props).mode = Mode.LINEAR
    ∧ ∀ q ∈ (animateTick ⟨true, 0.6, true, Mode.LINEAR⟩
        defaultState defaultShared).1.trailPoints,
      (animateTick ⟨true, 0.6, true, Mode.LINEAR⟩
        defaultState defaultShared).1.linearOffset - trailBehindDist ≤ q.x :=
  ⟨rfl, linear_evicts_oldest_behind ⟨true, 0.6, true, Mode.LINEAR⟩
      defaultState defaultShared rfl rfl rfl
      (by intro q hq; exact absurd hq (List.not_mem_nil q))⟩

end
end LightClockSim
